import Mathlib

/-!
Shallow embedding of the scene-composition core of
`7-1_FinalProjectMilestones/Source/SceneManager.cpp`.

Modelling conventions:
* Scalar values (C++ `float`) are embedded as exact rationals `ℚ`; the only
  angles the program ever feeds to the trigonometric functions are 0, 90 and
  -90 degrees, whose sines and cosines are exact, so rotations are
  parameterised by the `(cos, sin)` pair of the angle instead of the angle
  itself (0° becomes `(1, 0)`, 90° becomes `(0, 1)`, -90° becomes `(0, -1)`).
* Every `m_pShaderManager->setXValue(name, v)` call is embedded as a
  `ShaderCall` event; a binder operation returns the list of calls it
  performs.  The boolean parameter `sp` of a guarded operation stands for
  `m_pShaderManager != NULL`.  `SetShaderMaterial` takes no such parameter
  because the source performs its writes without consulting the pointer.
* The shader-parameter store behind a non-null shader manager is the record
  `ParamStore`; `applyCall` gives the last-write-wins semantics of the
  store for the closed set of parameter names the program uses.
* OpenGL texture-object state is the record `GLState`: `glGenTextures` hands
  out the next fresh handle, and `deleted` records handles passed to a
  deletion primitive (the program never calls one).
-/

/-- A 3-component vector (glm::vec3) with exact rational entries. -/
structure Vec3 where
  x : ℚ
  y : ℚ
  z : ℚ
  deriving DecidableEq

/-- A 4-component vector (glm::vec4) with exact rational entries. -/
structure Vec4 where
  x : ℚ
  y : ℚ
  z : ℚ
  w : ℚ
  deriving DecidableEq

/-- A 4x4 matrix (glm::mat4), row-major mathematical entries: `mIJ` is the
entry of row `I`, column `J`. -/
structure Mat4 where
  m00 : ℚ
  m01 : ℚ
  m02 : ℚ
  m03 : ℚ
  m10 : ℚ
  m11 : ℚ
  m12 : ℚ
  m13 : ℚ
  m20 : ℚ
  m21 : ℚ
  m22 : ℚ
  m23 : ℚ
  m30 : ℚ
  m31 : ℚ
  m32 : ℚ
  m33 : ℚ
  deriving DecidableEq

/-- Standard matrix product, the mathematical meaning of glm's mat4
multiplication. -/
def Mat4.mul (A B : Mat4) : Mat4 where
  m00 := A.m00 * B.m00 + A.m01 * B.m10 + A.m02 * B.m20 + A.m03 * B.m30
  m01 := A.m00 * B.m01 + A.m01 * B.m11 + A.m02 * B.m21 + A.m03 * B.m31
  m02 := A.m00 * B.m02 + A.m01 * B.m12 + A.m02 * B.m22 + A.m03 * B.m32
  m03 := A.m00 * B.m03 + A.m01 * B.m13 + A.m02 * B.m23 + A.m03 * B.m33
  m10 := A.m10 * B.m00 + A.m11 * B.m10 + A.m12 * B.m20 + A.m13 * B.m30
  m11 := A.m10 * B.m01 + A.m11 * B.m11 + A.m12 * B.m21 + A.m13 * B.m31
  m12 := A.m10 * B.m02 + A.m11 * B.m12 + A.m12 * B.m22 + A.m13 * B.m32
  m13 := A.m10 * B.m03 + A.m11 * B.m13 + A.m12 * B.m23 + A.m13 * B.m33
  m20 := A.m20 * B.m00 + A.m21 * B.m10 + A.m22 * B.m20 + A.m23 * B.m30
  m21 := A.m20 * B.m01 + A.m21 * B.m11 + A.m22 * B.m21 + A.m23 * B.m31
  m22 := A.m20 * B.m02 + A.m21 * B.m12 + A.m22 * B.m22 + A.m23 * B.m32
  m23 := A.m20 * B.m03 + A.m21 * B.m13 + A.m22 * B.m23 + A.m23 * B.m33
  m30 := A.m30 * B.m00 + A.m31 * B.m10 + A.m32 * B.m20 + A.m33 * B.m30
  m31 := A.m30 * B.m01 + A.m31 * B.m11 + A.m32 * B.m21 + A.m33 * B.m31
  m32 := A.m30 * B.m02 + A.m31 * B.m12 + A.m32 * B.m22 + A.m33 * B.m32
  m33 := A.m30 * B.m03 + A.m31 * B.m13 + A.m32 * B.m23 + A.m33 * B.m33

/-- glm::scale(v): the diagonal scaling matrix. -/
def scaleMat (v : Vec3) : Mat4 :=
  ⟨v.x, 0, 0, 0,
   0, v.y, 0, 0,
   0, 0, v.z, 0,
   0, 0, 0, 1⟩

/-- glm::translate(v): identity with the position in the last column. -/
def translationMat (v : Vec3) : Mat4 :=
  ⟨1, 0, 0, v.x,
   0, 1, 0, v.y,
   0, 0, 1, v.z,
   0, 0, 0, 1⟩

/-- glm::rotate(angle, vec3(1,0,0)): rotation about the X axis, given the
cosine `c` and sine `s` of the angle. -/
def rotationXMat (c s : ℚ) : Mat4 :=
  ⟨1, 0, 0, 0,
   0, c, -s, 0,
   0, s, c, 0,
   0, 0, 0, 1⟩

/-- glm::rotate(angle, vec3(0,1,0)): rotation about the Y axis. -/
def rotationYMat (c s : ℚ) : Mat4 :=
  ⟨c, 0, s, 0,
   0, 1, 0, 0,
   -s, 0, c, 0,
   0, 0, 0, 1⟩

/-- glm::rotate(angle, vec3(0,0,1)): rotation about the Z axis. -/
def rotationZMat (c s : ℚ) : Mat4 :=
  ⟨c, -s, 0, 0,
   s, c, 0, 0,
   0, 0, 1, 0,
   0, 0, 0, 1⟩

/-- One `m_pShaderManager->set...Value(name, value)` call. -/
inductive ShaderCall where
  | setMat4 (name : String) (value : Mat4)
  | setVec4 (name : String) (value : Vec4)
  | setVec3 (name : String) (value : Vec3)
  | setVec2 (name : String) (value : ℚ × ℚ)
  | setFloat (name : String) (value : ℚ)
  | setInt (name : String) (value : Int)
  | setSampler2D (name : String) (value : Int)
  | setBool (name : String) (value : Bool)
  deriving DecidableEq

/-- The `TEXTURE_ID` entry of the fixed texture table: GL handle plus tag. -/
structure TextureEntry where
  ID : Nat
  tag : String
  deriving DecidableEq

/-- The `OBJECT_MATERIAL` record of `SceneManager.h` as used by the source. -/
structure OBJECT_MATERIAL where
  ambientColor : Vec3
  ambientStrength : ℚ
  diffuseColor : Vec3
  specularColor : Vec3
  shininess : ℚ
  tag : String
  deriving DecidableEq

/-- The result of `stbi_load`: decoded image dimensions and channel count
(the pixel data itself is opaque to the registry logic). -/
structure Image where
  width : Nat
  height : Nat
  colorChannels : Nat
  deriving DecidableEq

/-- OpenGL texture-object state: `nextID` is the next fresh handle that
`glGenTextures` hands out; `deleted` records every handle passed to a
deletion primitive (`glDeleteTextures`) so far. -/
structure GLState where
  nextID : Nat
  deleted : List Nat
  deriving DecidableEq

/-- glGenTextures(1, &id): hands out a fresh texture handle. -/
def glGenTexture (gl : GLState) : Nat × GLState :=
  (gl.nextID, ⟨gl.nextID + 1, gl.deleted⟩)

/-- SceneManager::CreateGLTexture (SceneManager.cpp lines 60-124).
`image` is the `stbi_load` result (`none` = decode failure).  On a decode
failure the function returns false before touching GL or the registry; with
an unsupported channel count it returns false after generating a texture
object but before registering; otherwise it uploads (not modelled), appends
the entry at index `m_loadedTextures` and increments the counter (the
registry list: its length is `m_loadedTextures`). -/
def CreateGLTexture (image : Option Image) (tag : String) (gl : GLState)
    (reg : List TextureEntry) : Bool × GLState × List TextureEntry :=
  match image with
  | some img =>
      let r := glGenTexture gl
      if img.colorChannels = 3 then
        (true, r.2, reg ++ [⟨r.1, tag⟩])
      else if img.colorChannels = 4 then
        (true, r.2, reg ++ [⟨r.1, tag⟩])
      else
        (false, r.2, reg)
  | none => (false, gl, reg)

/-- The fixed texture-slot capacity: the `m_textureIDs` table has 16 slots
(SceneManager.cpp comments at lines 130 and 233: "There are up to 16
slots"; the array bound itself lives in the header, which matches the
spec's fixed slot count 16). -/
def maxTextureSlots : Nat := 16

/-- SceneManager::DestroyGLTextures (lines 148-154): for each occupied slot
the source calls `glGenTextures(1, &m_textureIDs[i].ID)` — the creation
primitive — overwriting the stored handle with a fresh one; no deletion
primitive is ever invoked. -/
def DestroyGLTextures : GLState → List TextureEntry → GLState × List TextureEntry
  | gl, [] => (gl, [])
  | gl, e :: rest =>
      let r := glGenTexture gl
      let rr := DestroyGLTextures r.2 rest
      (rr.1, { e with ID := r.1 } :: rr.2)

/-- The scanning loop of SceneManager::FindTextureSlot (lines 188-206):
first entry whose tag matches wins; `idx` is the running index. -/
def findSlotScan : List TextureEntry → String → Nat → Int
  | [], _, _ => -1
  | e :: rest, tag, idx =>
      if e.tag = tag then Int.ofNat idx else findSlotScan rest tag (idx + 1)

/-- SceneManager::FindTextureSlot: linear scan, first match wins, -1 when
no entry matches. -/
def FindTextureSlot (reg : List TextureEntry) (tag : String) : Int :=
  findSlotScan reg tag 0

/-- The scanning loop of SceneManager::FindMaterial (lines 250-267): on the
first entry whose tag matches, the five data fields are copied into the
out-parameter `material`; its `tag` field is never copied. -/
def findMaterialScan (tag : String) :
    List OBJECT_MATERIAL → OBJECT_MATERIAL → OBJECT_MATERIAL
  | [], material => material
  | m :: rest, material =>
      if m.tag = tag then
        { material with
            ambientColor := m.ambientColor
            ambientStrength := m.ambientStrength
            diffuseColor := m.diffuseColor
            specularColor := m.specularColor
            shininess := m.shininess }
      else findMaterialScan tag rest material

/-- SceneManager::FindMaterial (lines 243-270).  Returns false on an empty
registry; otherwise it scans, copies on the first match, and — exactly as
the source does — returns true whether or not any entry matched (the local
`bFound` flag is computed but never returned). -/
def FindMaterial (mats : List OBJECT_MATERIAL) (tag : String)
    (material : OBJECT_MATERIAL) : Bool × OBJECT_MATERIAL :=
  if mats.length = 0 then (false, material)
  else (true, findMaterialScan tag mats material)

/-- SceneManager::SetTransformations (lines 278-308).  The rotation angles
are given by their cosine/sine pairs (see the file header); the source
computes `translation * rotationX * rotationY * rotationZ * scale`
(left-associated, as C++ evaluates it) and writes it under "model" when the
shader-manager pointer is non-null (`sp`). -/
def SetTransformations (sp : Bool) (scaleXYZ : Vec3)
    (xCos xSin yCos ySin zCos zSin : ℚ) (positionXYZ : Vec3) :
    List ShaderCall :=
  let scale := scaleMat scaleXYZ
  let rotationX := rotationXMat xCos xSin
  let rotationY := rotationYMat yCos ySin
  let rotationZ := rotationZMat zCos zSin
  let translation := translationMat positionXYZ
  let modelView := (((translation.mul rotationX).mul rotationY).mul rotationZ).mul scale
  if sp then [ShaderCall.setMat4 "model" modelView] else []

/-- SceneManager::SetShaderColor (lines 316-335): guarded by the null check,
writes `bUseTexture := false` (as the int 0, since the source passes a bool
to `setIntValue`) and then the 4-component color. -/
def SetShaderColor (sp : Bool)
    (redColorValue greenColorValue blueColorValue alphaValue : ℚ) :
    List ShaderCall :=
  let currentColor : Vec4 :=
    ⟨redColorValue, greenColorValue, blueColorValue, alphaValue⟩
  if sp then
    [ShaderCall.setInt "bUseTexture" 0,
     ShaderCall.setVec4 "objectColor" currentColor]
  else []

/-- SceneManager::SetShaderTexture (lines 343-354): guarded by the null
check, writes `bUseTexture := true` (the int 1) and the slot index resolved
by `FindTextureSlot` as the sampler value. -/
def SetShaderTexture (sp : Bool) (reg : List TextureEntry)
    (textureTag : String) : List ShaderCall :=
  if sp then
    [ShaderCall.setInt "bUseTexture" 1,
     ShaderCall.setSampler2D "objectTexture" (FindTextureSlot reg textureTag)]
  else []

/-- SceneManager::SetTextureUVScale (lines 362-368): guarded by the null
check, writes the 2-component UV scale. -/
def SetTextureUVScale (sp : Bool) (u v : ℚ) : List ShaderCall :=
  if sp then [ShaderCall.setVec2 "UVscale" (u, v)] else []

/-- SceneManager::SetShaderMaterial (lines 376-394).  `material` is the
function's local `OBJECT_MATERIAL material;` variable, which the source
leaves uninitialized — it is therefore an arbitrary parameter here.  Note
there is no null-pointer guard in the source: the five writes are performed
whenever the registry is non-empty and `FindMaterial` reports true. -/
def SetShaderMaterial (mats : List OBJECT_MATERIAL) (materialTag : String)
    (material : OBJECT_MATERIAL) : List ShaderCall :=
  if mats.length > 0 then
    let r := FindMaterial mats materialTag material
    if r.1 = true then
      [ShaderCall.setVec3 "material.ambientColor" r.2.ambientColor,
       ShaderCall.setFloat "material.ambientStrength" r.2.ambientStrength,
       ShaderCall.setVec3 "material.diffuseColor" r.2.diffuseColor,
       ShaderCall.setVec3 "material.specularColor" r.2.specularColor,
       ShaderCall.setFloat "material.shininess" r.2.shininess]
    else []
  else []

/-- The shader-parameter store behind a non-null shader manager: one typed
field per parameter name the program writes (the key set is closed). -/
structure ParamStore where
  model : Mat4
  objectColor : Vec4
  useTexture : Bool
  objectTexture : Int
  uvScale : ℚ × ℚ
  matAmbientColor : Vec3
  matAmbientStrength : ℚ
  matDiffuseColor : Vec3
  matSpecularColor : Vec3
  matShininess : ℚ
  useLighting : Bool
  deriving DecidableEq

/-- Last-write-wins store semantics of one shader call: dispatch on the
parameter name; a name outside the known key set leaves the store alone. -/
def applyCall (s : ParamStore) : ShaderCall → ParamStore
  | ShaderCall.setMat4 n v =>
      if n = "model" then { s with model := v } else s
  | ShaderCall.setVec4 n v =>
      if n = "objectColor" then { s with objectColor := v } else s
  | ShaderCall.setVec3 n v =>
      if n = "material.ambientColor" then { s with matAmbientColor := v }
      else if n = "material.diffuseColor" then { s with matDiffuseColor := v }
      else if n = "material.specularColor" then { s with matSpecularColor := v }
      else s
  | ShaderCall.setVec2 n v =>
      if n = "UVscale" then { s with uvScale := v } else s
  | ShaderCall.setFloat n v =>
      if n = "material.ambientStrength" then { s with matAmbientStrength := v }
      else if n = "material.shininess" then { s with matShininess := v }
      else s
  | ShaderCall.setInt n v =>
      if n = "bUseTexture" then { s with useTexture := v != 0 } else s
  | ShaderCall.setSampler2D n v =>
      if n = "objectTexture" then { s with objectTexture := v } else s
  | ShaderCall.setBool n v =>
      if n = "bUseLighting" then { s with useLighting := v } else s

/-- Apply a sequence of shader calls to the store, in order. -/
def applyCalls (s : ParamStore) (cs : List ShaderCall) : ParamStore :=
  cs.foldl applyCall s

/-- SceneManager::DefineObjectMaterials (lines 410-495): the list that the
eight `push_back` calls leave in `m_objectMaterials`, with the literal
authored field values. -/
def DefineObjectMaterials : List OBJECT_MATERIAL :=
  [⟨⟨1/10, 1/10, 1/10⟩, 1/10, ⟨6/10, 5/10, 4/10⟩, ⟨2/10, 3/10, 4/10⟩, 1/2, "box1"⟩,
   ⟨⟨1/10, 1/10, 1/10⟩, 1/10, ⟨6/10, 5/10, 4/10⟩, ⟨2/10, 3/10, 4/10⟩, 1/2, "box2"⟩,
   ⟨⟨1/10, 1/10, 1/10⟩, 1/10, ⟨6/10, 5/10, 4/10⟩, ⟨2/10, 3/10, 4/10⟩, 1/2, "box3"⟩,
   ⟨⟨1/10, 1/10, 1/10⟩, 1/10, ⟨6/10, 5/10, 4/10⟩, ⟨2/10, 3/10, 4/10⟩, 1/2, "box4"⟩,
   ⟨⟨1/10, 1/10, 1/10⟩, 1/10, ⟨8/10, 7/10, 5/10⟩, ⟨2/10, 3/10, 4/10⟩, 1/2, "prism"⟩,
   ⟨⟨1/10, 1/10, 1/10⟩, 1/10, ⟨3/10, 7/10, 5/10⟩, ⟨2/10, 3/10, 4/10⟩, 7/10, "torus"⟩,
   ⟨⟨1/10, 1/10, 1/10⟩, 1/10, ⟨9/10, 9/10, 9/10⟩, ⟨1/2, 1/2, 1/2⟩, 8/10, "topPlane"⟩,
   ⟨⟨1/10, 1/10, 1/10⟩, 1/10, ⟨3/10, 3/10, 3/10⟩, ⟨1/2, 1/2, 1/2⟩, 3/10, "bottomPlane"⟩]

/-- SceneManager::LoadSceneTextures (lines 215-235): four `CreateGLTexture`
calls chained on the registry state, tagged "stone", "bush", "ground",
"sky"; each argument is the decode result of the corresponding image file.
The return values are assigned to a local and ignored, as in the source.
(`BindGLTextures` only mutates renderer texture-unit state, not the
registry.) -/
def LoadSceneTextures (stoneImg bushImg groundImg skyImg : Option Image)
    (gl : GLState) (reg : List TextureEntry) : GLState × List TextureEntry :=
  let r1 := CreateGLTexture stoneImg "stone" gl reg
  let r2 := CreateGLTexture bushImg "bush" r1.2.1 r1.2.2
  let r3 := CreateGLTexture groundImg "ground" r2.2.1 r2.2.2
  let r4 := CreateGLTexture skyImg "sky" r3.2.1 r3.2.2
  (r4.2.1, r4.2.2)

/-- A fresh GL context: first handle 1, nothing deleted. -/
def glInit : GLState := ⟨1, []⟩

/-- The texture registry after `LoadSceneTextures` when all four image
files decode successfully (3-channel JPEGs). -/
def canonicalTextures : List TextureEntry :=
  (LoadSceneTextures (some ⟨64, 64, 3⟩) (some ⟨64, 64, 3⟩)
    (some ⟨64, 64, 3⟩) (some ⟨64, 64, 3⟩) glInit []).2

/-- The primitive mesh kinds the scene draws. -/
inductive MeshKind where
  | Plane
  | Box
  | Torus
  | TaperedCylinder
  | Prism
  deriving DecidableEq

/-- One step of a render pass: either a shader-parameter call or an external
draw-primitive invocation. -/
inductive RenderEvent where
  | call (c : ShaderCall)
  | draw (k : MeshKind)
  deriving DecidableEq

/-- Lift a binder operation's calls into render events. -/
def callEvents (cs : List ShaderCall) : List RenderEvent :=
  cs.map RenderEvent.call

/-- SceneManager::RenderScene (lines 608-886): the exact sequence of binder
calls and draw-primitive invocations, with the literal authored transform,
color, texture-tag and material-tag values.  Rotation degrees are encoded
as (cos, sin) pairs: 0° is `1 0`, 90° is `0 1`, -90° is `0 (-1)`.
`sp` is the non-nullness of the shader-manager pointer, `texReg` the
texture registry, `mats` the material registry, and `material` the
(uninitialized) local that each `SetShaderMaterial` call reads on a missed
lookup. -/
def RenderScene (sp : Bool) (texReg : List TextureEntry)
    (mats : List OBJECT_MATERIAL) (material : OBJECT_MATERIAL) :
    List RenderEvent :=
  -- Bottom Plane - GROUND
  callEvents (SetTransformations sp ⟨20, 1, 10⟩ 1 0 1 0 1 0 ⟨0, 0, 0⟩) ++
  callEvents (SetShaderColor sp 1 1 1 1) ++
  callEvents (SetShaderTexture sp texReg "ground") ++
  callEvents (SetShaderMaterial mats "bottomPlane" material) ++
  [RenderEvent.draw MeshKind.Plane] ++
  -- Top Plane - Background (X rotation 90°)
  callEvents (SetTransformations sp ⟨20, 1, 10⟩ 0 1 1 0 1 0 ⟨0, 9, -10⟩) ++
  callEvents (SetShaderColor sp 1 1 1 1) ++
  callEvents (SetShaderTexture sp texReg "sky") ++
  callEvents (SetShaderMaterial mats "topPlane" material) ++
  [RenderEvent.draw MeshKind.Plane] ++
  -- Torus (X rotation 90°)
  callEvents (SetTransformations sp ⟨10, 6, 2⟩ 0 1 1 0 1 0 ⟨0, 0, 2⟩) ++
  callEvents (SetShaderColor sp (243/1000) (651/1000) (286/1000) 1) ++
  callEvents (SetShaderTexture sp texReg "bush") ++
  callEvents (SetShaderMaterial mats "torus" material) ++
  [RenderEvent.draw MeshKind.Torus] ++
  -- Box 1
  callEvents (SetTransformations sp ⟨7, 4, 3⟩ 1 0 1 0 1 0 ⟨0, 1, 5/2⟩) ++
  callEvents (SetShaderColor sp (871/1000) (804/1000) (675/1000) 1) ++
  callEvents (SetShaderTexture sp texReg "stone") ++
  callEvents (SetShaderMaterial mats "box1" material) ++
  [RenderEvent.draw MeshKind.Box] ++
  -- Box 2
  callEvents (SetTransformations sp ⟨5, 5/2, 3⟩ 1 0 1 0 1 0 ⟨0, 7/2, 5/2⟩) ++
  callEvents (SetShaderColor sp (871/1000) (804/1000) (675/1000) 1) ++
  callEvents (SetShaderTexture sp texReg "stone") ++
  callEvents (SetShaderMaterial mats "box2" material) ++
  [RenderEvent.draw MeshKind.Box] ++
  -- Box 3
  callEvents (SetTransformations sp ⟨7/2, 3, 5/2⟩ 1 0 1 0 1 0 ⟨0, 6, 2⟩) ++
  callEvents (SetShaderColor sp (871/1000) (804/1000) (675/1000) 1) ++
  callEvents (SetShaderTexture sp texReg "stone") ++
  callEvents (SetShaderMaterial mats "box3" material) ++
  [RenderEvent.draw MeshKind.Box] ++
  -- Box 4
  callEvents (SetTransformations sp ⟨2, 1, 5/2⟩ 1 0 1 0 1 0 ⟨0, 8, 2⟩) ++
  callEvents (SetShaderColor sp (871/1000) (804/1000) (675/1000) 1) ++
  callEvents (SetShaderTexture sp texReg "stone") ++
  callEvents (SetShaderMaterial mats "box4" material) ++
  [RenderEvent.draw MeshKind.Box] ++
  -- Prism (X rotation -90°)
  callEvents (SetTransformations sp ⟨7/4, 2, 23/10⟩ 0 (-1) 1 0 1 0 ⟨0, 93/10, 2⟩) ++
  callEvents (SetShaderColor sp (871/1000) (804/1000) (675/1000) 1) ++
  callEvents (SetShaderTexture sp texReg "stone") ++
  callEvents (SetShaderMaterial mats "prism" material) ++
  [RenderEvent.draw MeshKind.Prism]

/-- Does the event invoke a draw primitive? -/
def isDrawEvent : RenderEvent → Bool
  | RenderEvent.draw _ => true
  | RenderEvent.call _ => false

/-- The mesh kinds drawn by a render pass, in order. -/
def drawsOf (t : List RenderEvent) : List MeshKind :=
  t.filterMap fun e =>
    match e with
    | RenderEvent.draw k => some k
    | RenderEvent.call _ => none

/-- A model-matrix (transform) write. -/
def isTransformWrite : ShaderCall → Bool
  | ShaderCall.setMat4 n _ => n == "model"
  | _ => false

/-- A flat-color appearance write. -/
def isColorWrite : ShaderCall → Bool
  | ShaderCall.setVec4 n _ => n == "objectColor"
  | _ => false

/-- A texture-sampler appearance write. -/
def isTextureWrite : ShaderCall → Bool
  | ShaderCall.setSampler2D n _ => n == "objectTexture"
  | _ => false

/-- A write to one of the five material parameters. -/
def isMaterialParamWrite : ShaderCall → Bool
  | ShaderCall.setVec3 n _ =>
      n == "material.ambientColor" || n == "material.diffuseColor" ||
      n == "material.specularColor"
  | ShaderCall.setFloat n _ =>
      n == "material.ambientStrength" || n == "material.shininess"
  | _ => false

/-- Split a render pass into the shader-call segments preceding each draw;
`acc` accumulates the calls seen since the previous draw. -/
def splitSegs : List RenderEvent → List ShaderCall → List (List ShaderCall)
  | [], _ => []
  | RenderEvent.call c :: rest, acc => splitSegs rest (acc ++ [c])
  | RenderEvent.draw _ :: rest, acc => acc :: splitSegs rest []

/-- The shader-call segment preceding each draw call of a render pass. -/
def segments (t : List RenderEvent) : List (List ShaderCall) :=
  splitSegs t []

/-- A stand-in value for the indeterminate contents of the uninitialized
local `OBJECT_MATERIAL material;` in SceneManager::SetShaderMaterial. -/
def junkMaterial : OBJECT_MATERIAL :=
  ⟨⟨9, 9, 9⟩, 9, ⟨9, 9, 9⟩, ⟨9, 9, 9⟩, 9, ""⟩

/-- The render pass of the authored scene under normal operation: shader
manager present, all four textures loaded, the authored materials defined.
The uninitialized `SetShaderMaterial` local is `junkMaterial` (irrelevant
here: every authored material tag is found). -/
def canonicalTrace : List RenderEvent :=
  RenderScene true canonicalTextures DefineObjectMaterials junkMaterial

/-- An example prior parameter-store state, with material parameters left by
some previous draw call. -/
def priorStore : ParamStore :=
  ⟨scaleMat ⟨1, 1, 1⟩, ⟨1, 1, 1, 1⟩, false, 0, (1, 1),
   ⟨1/10, 1/10, 1/10⟩, 1/2, ⟨6/10, 5/10, 4/10⟩, ⟨2/10, 3/10, 4/10⟩, 1/2, true⟩

/-- A registry that already occupies all 16 texture slots. -/
def fullRegistry : List TextureEntry :=
  List.replicate 16 ⟨1, "t"⟩

/-- A small demonstration texture registry: "stone" in slot 0, "bush" in
slot 1. -/
def demoTextures : List TextureEntry :=
  [⟨1, "stone"⟩, ⟨2, "bush"⟩]

/-! ## Helper lemmas -/

/-- Matrix multiplication is associative, so the source's left-associated
product equals the spec's right-to-left composition. -/
theorem Mat4.mul_assoc (A B C : Mat4) : (A.mul B).mul C = A.mul (B.mul C) := by
  simp only [Mat4.mul, Mat4.mk.injEq]
  refine ⟨?_, ?_, ?_, ?_, ?_, ?_, ?_, ?_, ?_, ?_, ?_, ?_, ?_, ?_, ?_, ?_⟩ <;> ring

/-- A tag that occurs nowhere in the registry scans to the sentinel -1,
whatever the running index. -/
theorem findSlotScan_not_found (t : String) (reg : List TextureEntry) :
    ∀ (i : Nat), t ∉ reg.map TextureEntry.tag → findSlotScan reg t i = -1 := by
  induction reg with
  | nil => intro i _; rfl
  | cons e rest ih =>
      intro i h
      simp only [List.map_cons, List.mem_cons, not_or] at h
      have hne : e.tag ≠ t := fun hh => h.1 hh.symm
      simp only [findSlotScan, if_neg hne]
      exact ih (i + 1) h.2

/-- If position `k` holds the first entry carrying tag `t`, the scan started
at index `i` answers `i + k`. -/
theorem findSlotScan_first_match (t : String) (reg : List TextureEntry) :
    ∀ (k i : Nat) (e : TextureEntry),
      reg[k]? = some e → e.tag = t → t ∉ (reg.take k).map TextureEntry.tag →
      findSlotScan reg t i = Int.ofNat (i + k) := by
  induction reg with
  | nil => intro k i e hk _ _; simp at hk
  | cons hd rest ih =>
      intro k i e hk he htake
      cases k with
      | zero =>
          have hhd : hd = e := by simpa using hk
          subst hhd
          simp [findSlotScan, he]
      | succ k =>
          simp only [List.getElem?_cons_succ] at hk
          simp only [List.take_succ_cons, List.map_cons, List.mem_cons, not_or] at htake
          have hne : hd.tag ≠ t := fun hh => htake.1 hh.symm
          simp only [findSlotScan, if_neg hne]
          rw [ih k (i + 1) e hk he htake.2]
          congr 1
          omega

/-- Appending an entry with a tag that is fresh for the registry makes the
scan find it at the old length. -/
theorem findSlotScan_append_fresh (t : String) (e : TextureEntry)
    (he : e.tag = t) (reg : List TextureEntry) :
    ∀ (i : Nat), t ∉ reg.map TextureEntry.tag →
      findSlotScan (reg ++ [e]) t i = Int.ofNat (i + reg.length) := by
  induction reg with
  | nil => intro i _; simp [findSlotScan, he]
  | cons hd rest ih =>
      intro i h
      simp only [List.map_cons, List.mem_cons, not_or] at h
      have hne : hd.tag ≠ t := fun hh => h.1 hh.symm
      simp only [List.cons_append, findSlotScan, if_neg hne, List.append_eq]
      rw [ih (i + 1) h.2]
      simp only [List.length_cons]
      congr 1
      omega

/-! ## Claim theorems -/

/-- Claim C1 (code-bug demonstration).  The claim says that on a non-empty
material registry a tag matching no entry leaves all five material
parameters at their prior values.  The source's `FindMaterial` returns true
for every non-empty registry (its `bFound` flag is computed but never
returned), so `SetShaderMaterial` performs the five writes anyway, sourcing
them from its uninitialized local: with the authored registry and the
unmatched tag "nonexistent" the five writes occur carrying the local's
indeterminate values, and the prior ambient-strength value 1/2 is
overwritten.  The matched-tag half of the claim does hold: the last
conjunct shows "bottomPlane" writes exactly the five authored field
values. -/
theorem setShaderMaterial_unmatched_tag_still_writes :
    DefineObjectMaterials.all (fun m => m.tag != "nonexistent") = true
    ∧ (FindMaterial DefineObjectMaterials "nonexistent" junkMaterial).1 = true
    ∧ SetShaderMaterial DefineObjectMaterials "nonexistent" junkMaterial =
        [ShaderCall.setVec3 "material.ambientColor" ⟨9, 9, 9⟩,
         ShaderCall.setFloat "material.ambientStrength" 9,
         ShaderCall.setVec3 "material.diffuseColor" ⟨9, 9, 9⟩,
         ShaderCall.setVec3 "material.specularColor" ⟨9, 9, 9⟩,
         ShaderCall.setFloat "material.shininess" 9]
    ∧ priorStore.matAmbientStrength = 1/2
    ∧ (applyCalls priorStore
        (SetShaderMaterial DefineObjectMaterials "nonexistent" junkMaterial)).matAmbientStrength = 9
    ∧ SetShaderMaterial DefineObjectMaterials "bottomPlane" junkMaterial =
        [ShaderCall.setVec3 "material.ambientColor" ⟨1/10, 1/10, 1/10⟩,
         ShaderCall.setFloat "material.ambientStrength" (1/10),
         ShaderCall.setVec3 "material.diffuseColor" ⟨3/10, 3/10, 3/10⟩,
         ShaderCall.setVec3 "material.specularColor" ⟨1/2, 1/2, 1/2⟩,
         ShaderCall.setFloat "material.shininess" (3/10)] := by
  refine ⟨by decide, by decide, by decide, by norm_num [priorStore], by decide,
    by simp [SetShaderMaterial, FindMaterial, findMaterialScan,
      DefineObjectMaterials, junkMaterial]⟩

/-- Claim C2 (code-bug demonstration).  The claim says a load on a full
registry fails with `CapacityExceeded` and the occupied count stays at
capacity.  `CreateGLTexture` has no capacity check: on a registry already
holding 16 entries the next valid load returns true, the count becomes 17,
and the new entry sits at slot index 16 — one past the fixed 16-slot
table (an out-of-bounds write in the C++ source). -/
theorem createGLTexture_no_capacity_check :
    fullRegistry.length = maxTextureSlots
    ∧ (CreateGLTexture (some ⟨64, 64, 3⟩) "extra" ⟨17, []⟩ fullRegistry).1 = true
    ∧ (CreateGLTexture (some ⟨64, 64, 3⟩) "extra" ⟨17, []⟩ fullRegistry).2.2.length
        = maxTextureSlots + 1
    ∧ (CreateGLTexture (some ⟨64, 64, 3⟩) "extra" ⟨17, []⟩ fullRegistry).2.2[maxTextureSlots]?
        = some ⟨17, "extra"⟩ := by
  refine ⟨by decide, by decide, by decide, by decide⟩

/-- Claim C3: for every scale, rotation (given by the cosine/sine pairs of
the three Euler angles) and position, `SetTransformations` writes exactly
one model-matrix parameter, equal to
Translate(position) * RotateX * RotateY * RotateZ * Scale(scale) in that
fixed order; and at scale (2,1,1) with zero rotation (cos 0 = 1, sin 0 = 0)
and zero position the written matrix is the pure non-uniform scale matrix
diag(2,1,1,1) — no rotation or translation component. -/
theorem setTransformations_compose_order_and_pure_scale :
    (∀ (s : Vec3) (xc xsin yc ysin zc zsin : ℚ) (p : Vec3),
      SetTransformations true s xc xsin yc ysin zc zsin p =
        [ShaderCall.setMat4 "model"
          ((translationMat p).mul ((rotationXMat xc xsin).mul
            ((rotationYMat yc ysin).mul ((rotationZMat zc zsin).mul (scaleMat s)))))])
    ∧ SetTransformations true ⟨2, 1, 1⟩ 1 0 1 0 1 0 ⟨0, 0, 0⟩ =
        [ShaderCall.setMat4 "model"
          ⟨2, 0, 0, 0, 0, 1, 0, 0, 0, 0, 1, 0, 0, 0, 0, 1⟩] := by
  constructor
  · intro s xc xsin yc ysin zc zsin p
    simp [SetTransformations, Mat4.mul_assoc]
  · simp [SetTransformations, scaleMat, translationMat, rotationXMat,
      rotationYMat, rotationZMat, Mat4.mul]

/-- Claim C4 counterexample.  The claim says each draw call is preceded by
exactly one appearance write — either a set-color or a set-texture write,
not both.  In the authored render pass the segment before the very first
draw call already contains one color write and one texture write: the
source calls `SetShaderColor` and then `SetShaderTexture` for every
object. -/
theorem renderScene_first_draw_has_both_appearance_writes :
    (canonicalTrace.takeWhile (fun e => !isDrawEvent e)).countP
        (fun e => match e with
          | RenderEvent.call c => isColorWrite c
          | RenderEvent.draw _ => false) = 1
    ∧ (canonicalTrace.takeWhile (fun e => !isDrawEvent e)).countP
        (fun e => match e with
          | RenderEvent.call c => isTextureWrite c
          | RenderEvent.draw _ => false) = 1 := by
  refine ⟨by decide, by decide⟩

/-- Claim C4 as amended: the authored render pass issues exactly 8 draw
calls, in the authored order (plane, plane, torus, box, box, box, box,
prism), and the shader-call segment preceding each draw contains exactly
one transform write, exactly one set-color write followed by exactly one
set-texture write (both appearance writes are issued; the texture write
comes later, so texture mode is active at the draw), and exactly one
material write (the five material-parameter calls). -/
theorem renderScene_draw_structure :
    drawsOf canonicalTrace =
      [MeshKind.Plane, MeshKind.Plane, MeshKind.Torus, MeshKind.Box,
       MeshKind.Box, MeshKind.Box, MeshKind.Box, MeshKind.Prism]
    ∧ (segments canonicalTrace).length = 8
    ∧ (segments canonicalTrace).all (fun s =>
        (s.countP isTransformWrite == 1) && (s.countP isColorWrite == 1) &&
        (s.countP isTextureWrite == 1) &&
        Nat.blt (s.findIdx isColorWrite) (s.findIdx isTextureWrite) &&
        (s.countP isMaterialParamWrite == 5)) = true := by
  refine ⟨by decide, by decide, by decide⟩

/-- Claim C5: with the shader manager present, `SetShaderTexture` always
sets the use-texture flag to true and writes `FindTextureSlot`'s result as
the sampler index; a tag first loaded into slot `k` (no earlier entry
carries it) resolves to `k`, and a tag matching no entry resolves to the
not-found sentinel -1. -/
theorem setShaderTexture_resolves_slot :
    (∀ (reg : List TextureEntry) (t : String) (store : ParamStore),
      (applyCalls store (SetShaderTexture true reg t)).useTexture = true
      ∧ (applyCalls store (SetShaderTexture true reg t)).objectTexture
          = FindTextureSlot reg t)
    ∧ (∀ (reg : List TextureEntry) (t : String) (k : Nat) (e : TextureEntry),
        reg[k]? = some e → e.tag = t → t ∉ (reg.take k).map TextureEntry.tag →
        FindTextureSlot reg t = Int.ofNat k)
    ∧ (∀ (reg : List TextureEntry) (t : String),
        t ∉ reg.map TextureEntry.tag → FindTextureSlot reg t = -1) := by
  refine ⟨?_, ?_, ?_⟩
  · intro reg t store
    refine ⟨?_, ?_⟩ <;> simp [SetShaderTexture, applyCalls, applyCall]
  · intro reg t k e hk he htake
    have := findSlotScan_first_match t reg k 0 e hk he htake
    simpa [FindTextureSlot] using this
  · intro reg t h
    exact findSlotScan_not_found t reg 0 h

/-- Claim C5 witness: concrete registry with "stone" in slot 0 and "bush"
in slot 1. -/
theorem setShaderTexture_resolves_slot_witness :
    (applyCalls priorStore (SetShaderTexture true demoTextures "bush")).useTexture = true
    ∧ (applyCalls priorStore (SetShaderTexture true demoTextures "bush")).objectTexture
        = FindTextureSlot demoTextures "bush"
    ∧ demoTextures[1]? = some ⟨2, "bush"⟩
    ∧ "bush" ∉ (demoTextures.take 1).map TextureEntry.tag
    ∧ FindTextureSlot demoTextures "bush" = Int.ofNat 1
    ∧ "missing" ∉ demoTextures.map TextureEntry.tag
    ∧ FindTextureSlot demoTextures "missing" = -1 :=
  ⟨(setShaderTexture_resolves_slot.1 demoTextures "bush" priorStore).1,
   (setShaderTexture_resolves_slot.1 demoTextures "bush" priorStore).2,
   by decide, by decide,
   setShaderTexture_resolves_slot.2.1 demoTextures "bush" 1 ⟨2, "bush"⟩
     (by decide) rfl (by decide),
   by decide,
   setShaderTexture_resolves_slot.2.2 demoTextures "missing" (by decide)⟩

/-- Claim C6: a successful load (valid 3- or 4-channel image) of a tag not
already in the registry returns true, grows the occupied count by exactly
one, and a subsequent lookup of that tag answers the slot it was assigned
(the old count); and every tag never loaded looks up to the sentinel -1. -/
theorem createGLTexture_success_registers (img : Image) (t : String)
    (gl : GLState) (reg : List TextureEntry)
    (hch : img.colorChannels = 3 ∨ img.colorChannels = 4)
    (hfresh : t ∉ reg.map TextureEntry.tag) :
    (CreateGLTexture (some img) t gl reg).1 = true
    ∧ (CreateGLTexture (some img) t gl reg).2.2.length = reg.length + 1
    ∧ FindTextureSlot (CreateGLTexture (some img) t gl reg).2.2 t
        = Int.ofNat reg.length
    ∧ (∀ (u : String), u ∉ reg.map TextureEntry.tag →
        FindTextureSlot reg u = -1) := by
  have hreg : (CreateGLTexture (some img) t gl reg).2.2
      = reg ++ [⟨gl.nextID, t⟩] := by
    rcases hch with h | h <;> simp [CreateGLTexture, glGenTexture, h]
  have hok : (CreateGLTexture (some img) t gl reg).1 = true := by
    rcases hch with h | h <;> simp [CreateGLTexture, glGenTexture, h]
  refine ⟨hok, ?_, ?_, ?_⟩
  · rw [hreg]; simp
  · rw [hreg]
    have := findSlotScan_append_fresh t ⟨gl.nextID, t⟩ rfl reg 0 hfresh
    simpa [FindTextureSlot] using this
  · intro u hu
    exact findSlotScan_not_found u reg 0 hu

/-- Claim C6 witness: loading a fresh "ground" tag onto the two-entry demo
registry assigns slot 2. -/
theorem createGLTexture_success_registers_witness :
    ((⟨64, 64, 3⟩ : Image).colorChannels = 3 ∨ (⟨64, 64, 3⟩ : Image).colorChannels = 4)
    ∧ "ground" ∉ demoTextures.map TextureEntry.tag
    ∧ (CreateGLTexture (some ⟨64, 64, 3⟩) "ground" glInit demoTextures).1 = true
    ∧ (CreateGLTexture (some ⟨64, 64, 3⟩) "ground" glInit demoTextures).2.2.length
        = demoTextures.length + 1
    ∧ FindTextureSlot (CreateGLTexture (some ⟨64, 64, 3⟩) "ground" glInit demoTextures).2.2
        "ground" = Int.ofNat demoTextures.length :=
  ⟨Or.inl rfl, by decide,
   (createGLTexture_success_registers ⟨64, 64, 3⟩ "ground" glInit demoTextures
     (Or.inl rfl) (by decide)).1,
   (createGLTexture_success_registers ⟨64, 64, 3⟩ "ground" glInit demoTextures
     (Or.inl rfl) (by decide)).2.1,
   (createGLTexture_success_registers ⟨64, 64, 3⟩ "ground" glInit demoTextures
     (Or.inl rfl) (by decide)).2.2.1⟩

/-- Claim C7: a failed load — decode failure, or a decoded channel count
other than 3 or 4 — returns false and leaves the registry exactly as it
was. -/
theorem createGLTexture_failure_preserves_registry (t : String) (gl : GLState)
    (reg : List TextureEntry) (img : Image)
    (h3 : img.colorChannels ≠ 3) (h4 : img.colorChannels ≠ 4) :
    CreateGLTexture none t gl reg = (false, gl, reg)
    ∧ (CreateGLTexture (some img) t gl reg).1 = false
    ∧ (CreateGLTexture (some img) t gl reg).2.2 = reg := by
  refine ⟨rfl, ?_, ?_⟩ <;> simp [CreateGLTexture, glGenTexture, h3, h4]

/-- Claim C7 witness: a 2-channel image is rejected and the demo registry
is untouched. -/
theorem createGLTexture_failure_preserves_registry_witness :
    ((⟨64, 64, 2⟩ : Image).colorChannels ≠ 3)
    ∧ ((⟨64, 64, 2⟩ : Image).colorChannels ≠ 4)
    ∧ CreateGLTexture none "stone" glInit demoTextures = (false, glInit, demoTextures)
    ∧ (CreateGLTexture (some ⟨64, 64, 2⟩) "stone" glInit demoTextures).1 = false
    ∧ (CreateGLTexture (some ⟨64, 64, 2⟩) "stone" glInit demoTextures).2.2 = demoTextures :=
  ⟨by decide, by decide,
   (createGLTexture_failure_preserves_registry "stone" glInit demoTextures
     ⟨64, 64, 2⟩ (by decide) (by decide)).1,
   (createGLTexture_failure_preserves_registry "stone" glInit demoTextures
     ⟨64, 64, 2⟩ (by decide) (by decide)).2.1,
   (createGLTexture_failure_preserves_registry "stone" glInit demoTextures
     ⟨64, 64, 2⟩ (by decide) (by decide)).2.2⟩

/-- Claim C8: with the shader manager present, `SetShaderColor` writes the
4-component color (r,g,b,a) and sets the use-texture flag to false on every
prior store state; in particular a set-color call right after any
set-texture call leaves use-texture false. -/
theorem setShaderColor_writes_color_and_resets_useTexture :
    ∀ (r g b a : ℚ) (store : ParamStore) (reg : List TextureEntry) (t : String),
      (applyCalls store (SetShaderColor true r g b a)).objectColor = ⟨r, g, b, a⟩
      ∧ (applyCalls store (SetShaderColor true r g b a)).useTexture = false
      ∧ (applyCalls (applyCalls store (SetShaderTexture true reg t))
          (SetShaderColor true r g b a)).useTexture = false := by
  intro r g b a store reg t
  refine ⟨?_, ?_, ?_⟩ <;>
    simp [SetShaderColor, SetShaderTexture, applyCalls, applyCall]

/-- Claim C9 (code-bug demonstration).  The claim says teardown deletes
every occupied slot's texture handle and is idempotent.  The source's
`DestroyGLTextures` instead calls the creation primitive per slot: no
handle is ever deleted (the deleted set is preserved for every input), and
on a registry holding handle 5 the call merely replaces it with the fresh
handle 7; a second call changes the registry again (handle 8), so the
operation is not idempotent either. -/
theorem destroyGLTextures_never_releases :
    (∀ (gl : GLState) (reg : List TextureEntry),
      (DestroyGLTextures gl reg).1.deleted = gl.deleted)
    ∧ DestroyGLTextures ⟨7, []⟩ [⟨5, "stone"⟩] = (⟨8, []⟩, [⟨7, "stone"⟩])
    ∧ DestroyGLTextures ⟨8, []⟩ [⟨7, "stone"⟩] = (⟨9, []⟩, [⟨8, "stone"⟩]) := by
  refine ⟨?_, by decide, by decide⟩
  intro gl reg
  induction reg generalizing gl with
  | nil => rfl
  | cons e rest ih => simp [DestroyGLTextures, glGenTexture, ih]

/-- Claim C10: with a null shader-manager pointer, `SetTransformations`,
`SetShaderColor`, `SetShaderTexture` and `SetTextureUVScale` perform no
shader-parameter writes at all, while `SetShaderMaterial` — the one binder
operation whose body never consults the pointer (its embedding takes no
pointer parameter) — performs its five writes whenever the material
registry is non-empty and the lookup reports found. -/
theorem nullShader_guarded_noops_except_material
    (s p : Vec3) (xc xsin yc ysin zc zsin r g b a u v : ℚ)
    (reg : List TextureEntry) (t : String)
    (mats : List OBJECT_MATERIAL) (mtag : String) (material : OBJECT_MATERIAL)
    (hmats : mats ≠ []) (hfound : (FindMaterial mats mtag material).1 = true) :
    SetTransformations false s xc xsin yc ysin zc zsin p = []
    ∧ SetShaderColor false r g b a = []
    ∧ SetShaderTexture false reg t = []
    ∧ SetTextureUVScale false u v = []
    ∧ SetShaderMaterial mats mtag material =
        [ShaderCall.setVec3 "material.ambientColor"
           (FindMaterial mats mtag material).2.ambientColor,
         ShaderCall.setFloat "material.ambientStrength"
           (FindMaterial mats mtag material).2.ambientStrength,
         ShaderCall.setVec3 "material.diffuseColor"
           (FindMaterial mats mtag material).2.diffuseColor,
         ShaderCall.setVec3 "material.specularColor"
           (FindMaterial mats mtag material).2.specularColor,
         ShaderCall.setFloat "material.shininess"
           (FindMaterial mats mtag material).2.shininess] := by
  have hlen : mats.length > 0 := List.length_pos.mpr hmats
  refine ⟨rfl, rfl, rfl, rfl, ?_⟩
  simp [SetShaderMaterial, hlen, hfound]

/-- Claim C10 witness: the authored material registry with tag "box1". -/
theorem nullShader_guarded_noops_except_material_witness :
    DefineObjectMaterials ≠ []
    ∧ (FindMaterial DefineObjectMaterials "box1" junkMaterial).1 = true
    ∧ SetShaderColor false 1 0 0 1 = []
    ∧ SetShaderMaterial DefineObjectMaterials "box1" junkMaterial =
        [ShaderCall.setVec3 "material.ambientColor"
           (FindMaterial DefineObjectMaterials "box1" junkMaterial).2.ambientColor,
         ShaderCall.setFloat "material.ambientStrength"
           (FindMaterial DefineObjectMaterials "box1" junkMaterial).2.ambientStrength,
         ShaderCall.setVec3 "material.diffuseColor"
           (FindMaterial DefineObjectMaterials "box1" junkMaterial).2.diffuseColor,
         ShaderCall.setVec3 "material.specularColor"
           (FindMaterial DefineObjectMaterials "box1" junkMaterial).2.specularColor,
         ShaderCall.setFloat "material.shininess"
           (FindMaterial DefineObjectMaterials "box1" junkMaterial).2.shininess] :=
  ⟨by decide, by decide,
   (nullShader_guarded_noops_except_material ⟨0, 0, 0⟩ ⟨0, 0, 0⟩ 1 0 1 0 1 0 1 0 0 1 1 1
     [] "x" DefineObjectMaterials "box1" junkMaterial (by decide) (by decide)).2.1,
   (nullShader_guarded_noops_except_material ⟨0, 0, 0⟩ ⟨0, 0, 0⟩ 1 0 1 0 1 0 1 0 0 1 1 1
     [] "x" DefineObjectMaterials "box1" junkMaterial (by decide) (by decide)).2.2.2.2⟩
